import Mathlib

/-!
Shallow embedding of the sense-hat view-cycling and color-mapping core
(`sense.py`).  Sensor readings are modelled as exact rationals, Python's
`int()` truncation as `pyInt`, and the stateful `ColorCalc.compute` as a
state-passing function.  The display / setup side effects of the event
handler are recorded as an explicit effect list.
-/

namespace Sense

/-- Hysteresis threshold `E = 0.1` from the source. -/
def E : ℚ := 1/10

/-- RGB triple; channels are Python ints, modelled as `ℤ`. -/
structure RGB where
  red : ℤ
  green : ℤ
  blue : ℤ
deriving DecidableEq

/-- `WHITE = (0xFF, 0xFF, 0xFF)`. -/
def WHITE : RGB := ⟨0xFF, 0xFF, 0xFF⟩

/-- `BLACK = (0x00, 0x00, 0x00)`. -/
def BLACK : RGB := ⟨0, 0, 0⟩

/-- Swap the red and blue channels of a color. -/
def RGB.swapRB (c : RGB) : RGB := ⟨c.blue, c.green, c.red⟩

/-- Python `int()` on a rational: truncation toward zero. -/
def pyInt (q : ℚ) : ℤ := if q < 0 then ⌈q⌉ else ⌊q⌋

/-- State of a `ColorCalc` object: configured range, polarity, and the
hysteresis cache (`prev_value`, `color`). -/
structure ColorCalc where
  min_value : ℚ
  levels : ℚ
  reverse : Bool
  prev_value : Option ℚ
  color : Option RGB
deriving DecidableEq

/-- `ColorCalc.__init__(min_value, max_value, reverse)`:
`levels = max_value - min_value`, empty hysteresis cache. -/
def ColorCalc.init (min_value max_value : ℚ) (reverse : Bool) : ColorCalc :=
  ⟨min_value, max_value - min_value, reverse, none, none⟩

/-- The `score` computed inside `ColorCalc.compute`: `0` when
`value <= min_value`, else `min(1.0, abs(min_value - value) / levels)`.
(In Python a zero `levels` would raise `ZeroDivisionError`; in `ℚ`
division by zero yields `0` — all claims use nonzero ranges.) -/
def ColorCalc.score (self : ColorCalc) (value : ℚ) : ℚ :=
  if value > self.min_value then min 1 (|self.min_value - value| / self.levels) else 0

/-- The saturation computed inside `ColorCalc.compute`:
`int(255*(score*2-1))` for `score > 0.5`, else `int(255*(1-score*2))`. -/
def saturationOf (score : ℚ) : ℤ :=
  pyInt (if score > 1/2 then 255 * (score * 2 - 1) else 255 * (1 - score * 2))

/-- The recomputation path of `ColorCalc.compute` (lines 74-97 of the
source): store `value`, derive score and saturation, pick red or blue
according to the score side and the `reverse` flag, cache and return. -/
def ColorCalc.recompute (self : ColorCalc) (value : ℚ) : RGB × ColorCalc :=
  let score := self.score value
  let saturation := saturationOf score
  let red : RGB := ⟨saturation, 0, 0⟩
  let blue : RGB := ⟨0, 0, saturation⟩
  let c : RGB :=
    if score > 1/2 then (if self.reverse = false then red else blue)
    else (if self.reverse = false then blue else red)
  (c, { self with prev_value := some value, color := some c })

/-- `ColorCalc.compute(value)`: return the cached color unchanged when a
previous value and color exist and `abs(prev_value - value) < E`,
otherwise recompute. -/
def ColorCalc.compute (self : ColorCalc) (value : ℚ) : RGB × ColorCalc :=
  match self.prev_value, self.color with
  | some prev, some c =>
    if |prev - value| < E then (c, self) else self.recompute value
  | _, _ => self.recompute value

/-- The short-circuit guard of `ColorCalc.compute` (lines 67-71). -/
def ColorCalc.shortCircuits (self : ColorCalc) (value : ℚ) : Bool :=
  match self.prev_value, self.color with
  | some prev, some _ => decide (|prev - value| < E)
  | _, _ => false

/-- `ColorCalc.__deepcopy__` with a fresh memo dictionary: the source
passes the stored `levels` as the constructor's `max_value` argument and
lets `reverse` default to `False`. -/
def ColorCalc.deepcopy (self : ColorCalc) : ColorCalc :=
  ColorCalc.init self.min_value self.levels false

/-- Joystick directions. -/
inductive Direction where
  | left | right | up | down | enter
deriving DecidableEq

/-- Joystick actions. -/
inductive Action where
  | pressed | released | held
deriving DecidableEq

/-- A joystick input event. -/
structure StickEvent where
  action : Action
  direction : Direction
deriving DecidableEq

/-- Observable side effects of the event handler: painting one linear
cell of the LED grid, calling `setup` on the view at an index, or
calling `draw` on the view at an index. -/
inductive Effect where
  | paint (cell : ℤ) (color : RGB)
  | setupView (idx : ℤ)
  | drawView (idx : ℤ)
deriving DecidableEq

/-- The index state of `EventHandler` (the view cycler): number of
registered views and the current index, a Python int. -/
structure Cycler where
  numViews : ℕ
  current_idx : ℤ
deriving DecidableEq

/-- `{ 'left': -1, 'right': +1 }.get(direction, 0)` from
`__handle_event`. -/
def dirOffset (d : Direction) : ℤ :=
  match d with
  | .left => -1
  | .right => 1
  | _ => 0

/-- `EventHandler.__set_new_view(new_idx)`: paint status cell
`48 + current_idx` BLACK, paint `48 + new_idx` WHITE, store the new
index, call `setup` on the newly active view. -/
def Cycler.setNewView (self : Cycler) (new_idx : ℤ) : Cycler × List Effect :=
  ({ self with current_idx := new_idx },
   [.paint (48 + self.current_idx) BLACK, .paint (48 + new_idx) WHITE, .setupView new_idx])

/-- `EventHandler.__handle_event(event)`: on `pressed`, offset the index
by the direction, and when the offset index differs from the current one
wrap it into range (the wrap happens after the difference test) and
switch views. -/
def Cycler.handleEvent (self : Cycler) (e : StickEvent) : Cycler × List Effect :=
  if e.action = .pressed then
    let new_idx := self.current_idx + dirOffset e.direction
    if new_idx ≠ self.current_idx then
      let max_idx : ℤ := (self.numViews : ℤ) - 1
      let wrapped := if new_idx > max_idx then 0 else if new_idx < 0 then max_idx else new_idx
      self.setNewView wrapped
    else (self, [])
  else (self, [])

/-- One iteration of the body of `EventHandler.event_loop`: handle all
pending events in arrival order, then draw the active view once. -/
def Cycler.loopIteration (self : Cycler) (events : List StickEvent) : Cycler × List Effect :=
  let afterEvents := events.foldl
    (fun (acc : Cycler × List Effect) e =>
      let r := acc.1.handleEvent e
      (r.1, acc.2 ++ r.2))
    (self, [])
  (afterEvents.1, afterEvents.2 ++ [Effect.drawView afterEvents.1.current_idx])

/-- The sensor capability surface seen by `FullScreenView.draw`: named
scalar properties, absent ones reading as `None`. -/
structure Hat where
  props : String → Option ℚ

/-- `FullScreenView`: one calculator and the name of the sensor property
it renders. -/
structure FullScreenView where
  color_calc : ColorCalc
  property : String

/-- `FullScreenView.draw(hat)`: read the named property; if it is `None`
raise (modelled as `Except.error`, with the empty effect list emitted
before the raise), otherwise compute one color and paint cells 0-47. -/
def FullScreenView.draw (self : FullScreenView) (hat : Hat) :
    List Effect × Except String (RGB × ColorCalc) :=
  match hat.props self.property with
  | none => ([], .error ("Unknown property: " ++ self.property))
  | some value =>
    let r := self.color_calc.compute value
    ((List.range 48).map fun idx => Effect.paint (idx : ℤ) r.1, .ok r)

/-! Helper lemmas. -/

theorem compute_of_shortCircuits_false (s : ColorCalc) (v : ℚ)
    (h : s.shortCircuits v = false) : s.compute v = s.recompute v := by
  cases hp : s.prev_value with
  | none => simp [ColorCalc.compute, hp]
  | some prev =>
    cases hc : s.color with
    | none => simp [ColorCalc.compute, hp, hc]
    | some c =>
      simp only [ColorCalc.shortCircuits, hp, hc, decide_eq_false_iff_not] at h
      simp [ColorCalc.compute, hp, hc, h]

theorem compute_init (mn mx : ℚ) (r : Bool) (v : ℚ) :
    (ColorCalc.init mn mx r).compute v = (ColorCalc.init mn mx r).recompute v := rfl

theorem shortCircuits_init (mn mx : ℚ) (r : Bool) (v : ℚ) :
    (ColorCalc.init mn mx r).shortCircuits v = false := rfl

theorem pyInt_eq_floor (q : ℚ) (h : 0 ≤ q) : pyInt q = ⌊q⌋ := by
  simp [pyInt, not_lt.mpr h]

theorem saturationOf_eq_floor (q : ℚ) :
    saturationOf q = ⌊(510 : ℚ) * |q - 1/2|⌋ := by
  unfold saturationOf
  split_ifs with h
  · rw [pyInt_eq_floor _ (by linarith), abs_of_pos (by linarith)]
    ring_nf
  · rw [pyInt_eq_floor _ (by linarith), abs_of_nonpos (by linarith)]
    ring_nf

theorem recompute_channels (c : ColorCalc) (v : ℚ) :
    (c.recompute v).1.red + (c.recompute v).1.green + (c.recompute v).1.blue =
      saturationOf (c.score v) := by
  simp only [ColorCalc.recompute]
  split_ifs <;> simp

theorem recompute_snd (c : ColorCalc) (v : ℚ) :
    (c.recompute v).2 =
      { c with prev_value := some v, color := some (c.recompute v).1 } := by
  simp only [ColorCalc.recompute]

theorem wrap_right (n : ℕ) (i : ℤ) (h0 : 0 ≤ i) (h1 : i < n) :
    (i + 1) % (n : ℤ) = if i + 1 > (n : ℤ) - 1 then 0 else i + 1 := by
  split_ifs with h
  · have he : i + 1 = (n : ℤ) := by omega
    simp [he]
  · exact Int.emod_eq_of_lt (by omega) (by omega)

theorem wrap_left (n : ℕ) (i : ℤ) (h0 : 0 ≤ i) (h1 : i < n) :
    (i - 1) % (n : ℤ) = if i - 1 < 0 then (n : ℤ) - 1 else i - 1 := by
  split_ifs with h
  · have hi : i = 0 := by omega
    subst hi
    have h2 : ((0 : ℤ) - 1 + (n : ℤ) * 1) % (n : ℤ) = ((0 : ℤ) - 1) % (n : ℤ) :=
      Int.add_mul_emod_self_left ((0 : ℤ) - 1) (n : ℤ) 1
    have h3 : (0 : ℤ) - 1 + (n : ℤ) * 1 = (n : ℤ) - 1 := by ring
    rw [h3] at h2
    rw [← h2]
    exact Int.emod_eq_of_lt (by omega) (by omega)
  · exact Int.emod_eq_of_lt (by omega) (by omega)

theorem handleEvent_right (n : ℕ) (i : ℤ) (h0 : 0 ≤ i) (h1 : i < n) :
    (Cycler.mk n i).handleEvent ⟨.pressed, .right⟩ =
      (⟨n, (i + 1) % n⟩,
       [.paint (48 + i) BLACK, .paint (48 + (i + 1) % n) WHITE, .setupView ((i + 1) % n)]) := by
  rw [wrap_right n i h0 h1]
  simp only [Cycler.handleEvent, dirOffset, Cycler.setNewView]
  norm_num
  split_ifs <;> omega

theorem handleEvent_left (n : ℕ) (i : ℤ) (h0 : 0 ≤ i) (h1 : i < n) :
    (Cycler.mk n i).handleEvent ⟨.pressed, .left⟩ =
      (⟨n, (i - 1) % n⟩,
       [.paint (48 + i) BLACK, .paint (48 + (i - 1) % n) WHITE, .setupView ((i - 1) % n)]) := by
  rw [wrap_left n i h0 h1]
  simp only [Cycler.handleEvent, dirOffset, Cycler.setNewView]
  have hlt : ¬ (i + -1 > (n : ℤ) - 1) := by omega
  norm_num [hlt]
  omega

/-! Claim theorems. -/

/-- C1, counterexample: on a fresh `ColorCalc(-40, 40)` the first call
`compute(-40)` returns `(0, 0, 255)` — score 0 gives saturation
`int(255 * (1 - 0)) = 255` on the blue side — not `(0, 0, 0)` as the
claim states. -/
theorem c1_counterexample :
    ((ColorCalc.init (-40) 40 false).compute (-40)).1 = ⟨0, 0, 255⟩ ∧
    ((ColorCalc.init (-40) 40 false).compute (-40)).1 ≠ ⟨0, 0, 0⟩ := by
  norm_num [ColorCalc.compute, ColorCalc.init, ColorCalc.recompute, ColorCalc.score,
    saturationOf, pyInt]

/-- C1, amended: for a fresh `ColorCalc` configured with min = -40 and
max = 40, the three consecutive calls `compute(-40)`, `compute(40)`,
`compute(0)` return `(0, 0, 255)`, then `(255, 0, 0)`, then
`(0, 0, 0)`. -/
theorem c1_theorem :
    (((ColorCalc.init (-40) 40 false).compute (-40)).1 = ⟨0, 0, 255⟩) ∧
    ((((ColorCalc.init (-40) 40 false).compute (-40)).2.compute 40).1 = ⟨255, 0, 0⟩) ∧
    (((((ColorCalc.init (-40) 40 false).compute (-40)).2.compute 40).2.compute 0).1
      = ⟨0, 0, 0⟩) := by
  norm_num [ColorCalc.compute, ColorCalc.init, ColorCalc.recompute, ColorCalc.score,
    saturationOf, pyInt, E, abs_sub_lt_iff]

/-- C2, counterexample: on a fresh `ColorCalc(-40, 40)`, `compute(39)`
recomputes with score `79/80`, and the code's `int()` truncation yields
saturation `int(248.625) = 248`, while the claimed `round` would give
`249`. -/
theorem c2_counterexample :
    ((ColorCalc.init (-40) 40 false).compute 39).1 = ⟨248, 0, 0⟩ ∧
    round ((255 : ℚ) * (2 * ((ColorCalc.init (-40) 40 false).score 39) - 1)) = 249 := by
  constructor
  · norm_num [ColorCalc.compute, ColorCalc.init, ColorCalc.recompute, ColorCalc.score,
      saturationOf, pyInt, min_def, abs_sub_lt_iff]
  · rw [round_eq]
    norm_num [ColorCalc.score, ColorCalc.init, min_def, abs_sub_lt_iff]

/-- C2, amended: for every recomputed call (not short-circuited by
hysteresis), the saturation of the returned color — the sum of its
channels, as the other two are zero — equals the truncation
`⌊255 * (2*score - 1)⌋` when score > 0.5 and `⌊255 * (1 - 2*score)⌋`
when score ≤ 0.5 (the source applies Python `int()`, i.e. truncation,
not `round`). -/
theorem c2_theorem (c : ColorCalc) (v : ℚ) (h : c.shortCircuits v = false) :
    ((c.compute v).1.red + (c.compute v).1.green + (c.compute v).1.blue) =
      (if c.score v > 1/2 then ⌊(255 : ℚ) * (2 * c.score v - 1)⌋
       else ⌊(255 : ℚ) * (1 - 2 * c.score v)⌋) := by
  rw [compute_of_shortCircuits_false c v h, recompute_channels]
  unfold saturationOf
  split_ifs with hs
  · rw [pyInt_eq_floor _ (by linarith)]
    congr 1
    ring
  · rw [pyInt_eq_floor _ (by linarith)]
    congr 1
    ring

/-- Witness for `c2_theorem` at `ColorCalc(-40, 40)` and value 39. -/
theorem c2_theorem_witness :
    ((ColorCalc.init (-40) 40 false).shortCircuits 39 = false) ∧
    (((ColorCalc.init (-40) 40 false).compute 39).1.red +
      ((ColorCalc.init (-40) 40 false).compute 39).1.green +
      ((ColorCalc.init (-40) 40 false).compute 39).1.blue =
      (if (ColorCalc.init (-40) 40 false).score 39 > 1/2
       then ⌊(255 : ℚ) * (2 * (ColorCalc.init (-40) 40 false).score 39 - 1)⌋
       else ⌊(255 : ℚ) * (1 - 2 * (ColorCalc.init (-40) 40 false).score 39)⌋)) :=
  ⟨rfl, c2_theorem (ColorCalc.init (-40) 40 false) 39 rfl⟩

/-- C3: if a `compute` call on any calculator state is not
short-circuited (so it stores `v1` and caches its color), then a
consecutive call with any `v2` satisfying `|v1 - v2| < 0.1` returns the
identical color and leaves the whole calculator state — stored previous
value and cached color included — unchanged. -/
theorem c3_theorem (s : ColorCalc) (v1 v2 : ℚ) (h : s.shortCircuits v1 = false)
    (hnear : |v1 - v2| < E) :
    (s.compute v1).2.compute v2 = ((s.compute v1).1, (s.compute v1).2) := by
  rw [compute_of_shortCircuits_false s v1 h]
  rw [recompute_snd s v1]
  simp [ColorCalc.compute, hnear]

/-- Witness for `c3_theorem`: fresh `ColorCalc(0, 100)`, values 50 and
50.05. -/
theorem c3_theorem_witness :
    ((ColorCalc.init 0 100 false).shortCircuits 50 = false) ∧
    (|50 - (1001/20 : ℚ)| < E) ∧
    (((ColorCalc.init 0 100 false).compute 50).2.compute (1001/20) =
      (((ColorCalc.init 0 100 false).compute 50).1,
       ((ColorCalc.init 0 100 false).compute 50).2)) :=
  ⟨rfl, by norm_num [E, abs_lt],
   c3_theorem (ColorCalc.init 0 100 false) 50 (1001/20) rfl
     (by norm_num [E, abs_lt])⟩

/-- C4: for a cycler with `n ≥ 1` views and valid index `i`, a pressed
right sets the index to `(i + 1) % n` and a pressed left to
`(i - 1) % n`; whenever the resulting index differs from `i` the handler
emits exactly the paint of cell `48 + i` BLACK, the paint of the new
status cell WHITE, and the `setup` of the new view; within a loop
iteration the view's `draw` comes after all of these; and the 3-view,
index-2 scenario yields index 0 with cell 50 BLACK and cell 48 WHITE. -/
theorem c4_theorem (n : ℕ) (i : ℤ) (_hn : 1 ≤ n) (h0 : 0 ≤ i) (h1 : i < n) :
    ((Cycler.mk n i).handleEvent ⟨.pressed, .right⟩).1.current_idx = (i + 1) % n ∧
    ((Cycler.mk n i).handleEvent ⟨.pressed, .left⟩).1.current_idx = (i - 1) % n ∧
    (((Cycler.mk n i).handleEvent ⟨.pressed, .right⟩).1.current_idx ≠ i →
      ((Cycler.mk n i).handleEvent ⟨.pressed, .right⟩).2 =
        [.paint (48 + i) BLACK, .paint (48 + (i + 1) % n) WHITE, .setupView ((i + 1) % n)]) ∧
    (((Cycler.mk n i).handleEvent ⟨.pressed, .left⟩).1.current_idx ≠ i →
      ((Cycler.mk n i).handleEvent ⟨.pressed, .left⟩).2 =
        [.paint (48 + i) BLACK, .paint (48 + (i - 1) % n) WHITE, .setupView ((i - 1) % n)]) ∧
    ((Cycler.mk n i).loopIteration [⟨.pressed, .right⟩]).2 =
      ((Cycler.mk n i).handleEvent ⟨.pressed, .right⟩).2 ++ [.drawView ((i + 1) % n)] ∧
    (Cycler.mk 3 2).handleEvent ⟨.pressed, .right⟩ =
      (⟨3, 0⟩, [.paint 50 BLACK, .paint 48 WHITE, .setupView 0]) := by
  rw [handleEvent_right n i h0 h1, handleEvent_left n i h0 h1]
  refine ⟨rfl, rfl, fun h => rfl, fun h => rfl, ?_, ?_⟩
  · simp [Cycler.loopIteration, handleEvent_right n i h0 h1]
  · rw [handleEvent_right 3 2 (by norm_num) (by norm_num)]
    norm_num

/-- Witness for `c4_theorem` with 3 views at index 1. -/
theorem c4_theorem_witness :
    (1 ≤ 3) ∧ ((0 : ℤ) ≤ 1) ∧ ((1 : ℤ) < (3 : ℕ)) ∧
    ((Cycler.mk 3 1).handleEvent ⟨.pressed, .right⟩).1.current_idx = (1 + 1) % (3 : ℕ) ∧
    ((Cycler.mk 3 1).handleEvent ⟨.pressed, .left⟩).1.current_idx = (1 - 1) % (3 : ℕ) :=
  ⟨by norm_num, by norm_num, by norm_num,
   (c4_theorem 3 1 (by norm_num) (by norm_num) (by norm_num)).1,
   (c4_theorem 3 1 (by norm_num) (by norm_num) (by norm_num)).2.1⟩

/-- C5, counterexample: with exactly one view, a pressed right wraps back
to index 0, yet the handler's effect list is not empty — it repaints
status cell 48 (BLACK then WHITE) and invokes `setup` again, because the
no-change test runs before the wraparound. -/
theorem c5_counterexample :
    ((Cycler.mk 1 0).handleEvent ⟨.pressed, .right⟩).1.current_idx = 0 ∧
    ((Cycler.mk 1 0).handleEvent ⟨.pressed, .right⟩).2 ≠ [] ∧
    Effect.setupView 0 ∈ ((Cycler.mk 1 0).handleEvent ⟨.pressed, .right⟩).2 := by
  refine ⟨?_, ?_, ?_⟩ <;> simp [Cycler.handleEvent, dirOffset, Cycler.setNewView]

/-- C5, amended: with exactly one view, a pressed left or right wraps
back to index 0 (the index is unchanged), but the transition is not
effect-free: the handler paints cell 48 BLACK, paints cell 48 WHITE, and
invokes `setup` on the view again. -/
theorem c5_theorem :
    (Cycler.mk 1 0).handleEvent ⟨.pressed, .right⟩ =
      (⟨1, 0⟩, [.paint 48 BLACK, .paint 48 WHITE, .setupView 0]) ∧
    (Cycler.mk 1 0).handleEvent ⟨.pressed, .left⟩ =
      (⟨1, 0⟩, [.paint 48 BLACK, .paint 48 WHITE, .setupView 0]) := by
  constructor <;> simp [Cycler.handleEvent, dirOffset, Cycler.setNewView]

/-- C6: for any `(min, max, value)`, `compute(value)` on a fresh
calculator with `reverse = True` equals `compute(value)` on a fresh
calculator with the same range and `reverse = False`, with the red and
blue channels swapped. -/
theorem c6_theorem (mn mx v : ℚ) :
    ((ColorCalc.init mn mx true).compute v).1 =
      RGB.swapRB (((ColorCalc.init mn mx false).compute v).1) := by
  rw [compute_init, compute_init]
  simp only [ColorCalc.recompute, ColorCalc.score, ColorCalc.init, RGB.swapRB]
  split_ifs <;> simp_all

/-- C7, counterexample: on fresh `ColorCalc(0, 1000)` calculators the
readings 500 and 501 recompute with scores `1/2` and `501/1000`;
`|1/2 - 1/2| < |501/1000 - 1/2|`, yet both scores yield saturation 0 —
the integer truncation defeats strict monotonicity. -/
theorem c7_counterexample :
    ((ColorCalc.init 0 1000 false).score 500 = 1/2) ∧
    ((ColorCalc.init 0 1000 false).score 501 = 501/1000) ∧
    |(1/2 : ℚ) - 1/2| < |(501/1000 : ℚ) - 1/2| ∧
    saturationOf ((ColorCalc.init 0 1000 false).score 501) =
      saturationOf ((ColorCalc.init 0 1000 false).score 500) := by
  have hs1 : (ColorCalc.init 0 1000 false).score 500 = 1/2 := by
    norm_num [ColorCalc.score, ColorCalc.init, min_def, abs_of_nonneg]
  have hs2 : (ColorCalc.init 0 1000 false).score 501 = 501/1000 := by
    norm_num [ColorCalc.score, ColorCalc.init, min_def, abs_of_nonneg]
  refine ⟨hs1, hs2, ?_, ?_⟩
  · rw [show |(1/2 : ℚ) - 1/2| = 0 by norm_num,
        show |(501/1000 : ℚ) - 1/2| = 1/1000 by rw [abs_of_pos] <;> norm_num]
    norm_num
  · rw [hs1, hs2]
    norm_num [saturationOf, pyInt]

/-- C7, amended: the saturation derived from a score is monotone
non-decreasing — not strictly increasing — in the distance of the score
from the midpoint 0.5: if `|score1 - 0.5| ≤ |score2 - 0.5|` then the
saturation for score1 is at most the saturation for score2. -/
theorem c7_theorem (c1 c2 : ColorCalc) (v1 v2 : ℚ)
    (h : |c1.score v1 - 1/2| ≤ |c2.score v2 - 1/2|) :
    saturationOf (c1.score v1) ≤ saturationOf (c2.score v2) := by
  rw [saturationOf_eq_floor, saturationOf_eq_floor]
  exact Int.floor_le_floor (mul_le_mul_of_nonneg_left h (by norm_num))

/-- Witness for `c7_theorem`: fresh `ColorCalc(0, 100)` at readings 50
(score 1/2) and 100 (score 1). -/
theorem c7_theorem_witness :
    (|(ColorCalc.init 0 100 false).score 50 - 1/2| ≤
      |(ColorCalc.init 0 100 false).score 100 - 1/2|) ∧
    saturationOf ((ColorCalc.init 0 100 false).score 50) ≤
      saturationOf ((ColorCalc.init 0 100 false).score 100) := by
  have hle : |(ColorCalc.init 0 100 false).score 50 - 1/2| ≤
      |(ColorCalc.init 0 100 false).score 100 - 1/2| := by
    have hs1 : (ColorCalc.init 0 100 false).score 50 = 1/2 := by
      norm_num [ColorCalc.score, ColorCalc.init, min_def, abs_of_nonneg]
    have hs2 : (ColorCalc.init 0 100 false).score 100 = 1 := by
      norm_num [ColorCalc.score, ColorCalc.init, min_def, abs_of_nonneg]
    rw [hs1, hs2]
    rw [show |(1/2 : ℚ) - 1/2| = 0 by norm_num,
        show |(1 : ℚ) - 1/2| = 1/2 by rw [abs_of_pos] <;> norm_num]
    norm_num
  exact ⟨hle, c7_theorem (ColorCalc.init 0 100 false) (ColorCalc.init 0 100 false) 50 100 hle⟩

/-- C8, counterexample: a fresh `ColorCalc(-40, 40)` at reading 0 has
score exactly 0.5, saturation 0, and returns `(0, 0, 0)` — a color with
no non-zero channel, refuting "exactly one non-zero channel / never
all-zero". -/
theorem c8_counterexample :
    (((ColorCalc.init (-40) 40 false).compute 0).1.red = 0) ∧
    (((ColorCalc.init (-40) 40 false).compute 0).1.green = 0) ∧
    (((ColorCalc.init (-40) 40 false).compute 0).1.blue = 0) := by
  norm_num [ColorCalc.compute, ColorCalc.init, ColorCalc.recompute, ColorCalc.score,
    saturationOf, pyInt, min_def, abs_of_nonneg]

/-- C8, amended: every recomputed color lies on the red↔blue ramp in the
weaker sense that its green channel is zero and at most one of red and
blue is non-zero; the all-zero color does occur (at saturation 0). -/
theorem c8_theorem (c : ColorCalc) (v : ℚ) (h : c.shortCircuits v = false) :
    ((c.compute v).1.green = 0) ∧
    ((c.compute v).1.red = 0 ∨ (c.compute v).1.blue = 0) := by
  rw [compute_of_shortCircuits_false c v h]
  simp only [ColorCalc.recompute]
  split_ifs <;> simp

/-- Witness for `c8_theorem` at `ColorCalc(-40, 40)` and reading 0. -/
theorem c8_theorem_witness :
    ((ColorCalc.init (-40) 40 false).shortCircuits 0 = false) ∧
    (((ColorCalc.init (-40) 40 false).compute 0).1.green = 0) ∧
    (((ColorCalc.init (-40) 40 false).compute 0).1.red = 0 ∨
      ((ColorCalc.init (-40) 40 false).compute 0).1.blue = 0) :=
  ⟨rfl, (c8_theorem (ColorCalc.init (-40) 40 false) 0 rfl).1,
    (c8_theorem (ColorCalc.init (-40) 40 false) 0 rfl).2⟩

/-- C9: `FullScreenView.draw` fails (with the "Unknown property" error)
exactly when the sensor capability does not expose the requested
property, and in that case it emits no paint effect at all: the frame's
render is aborted with nothing painted. -/
theorem c9_theorem (v : FullScreenView) (hat : Hat) :
    ((∃ msg, (v.draw hat).2 = Except.error msg) ↔ hat.props v.property = none) ∧
    (hat.props v.property = none → (v.draw hat).1 = []) := by
  cases hp : hat.props v.property with
  | none => simp [FullScreenView.draw, hp]
  | some value => simp [FullScreenView.draw, hp]

/-- Witness for `c9_theorem`: a hat exposing no property at all and a
temperature view. -/
theorem c9_theorem_witness :
    ((∃ msg, ((FullScreenView.mk (ColorCalc.init 0 100 false) "temperature").draw
        (Hat.mk fun _ => none)).2 = Except.error msg) ↔
      (Hat.mk fun _ => none).props "temperature" = none) ∧
    ((Hat.mk fun _ => none).props "temperature" = none →
      ((FullScreenView.mk (ColorCalc.init 0 100 false) "temperature").draw
        (Hat.mk fun _ => none)).1 = []) :=
  c9_theorem (FullScreenView.mk (ColorCalc.init 0 100 false) "temperature")
    (Hat.mk fun _ => none)

/-- C10: `__deepcopy__` produces a calculator whose `min_value` is the
original's, whose `levels` is the original's `levels` minus its
`min_value` (the stored width is passed as the constructor's max), whose
`reverse` is `False`, and whose hysteresis cache is empty; it reproduces
the original's range and polarity exactly when `min_value = 0` and
`reverse = False`, and its width is non-positive exactly when
`min_value ≥ levels`. -/
theorem c10_theorem (c : ColorCalc) :
    c.deepcopy.min_value = c.min_value ∧
    c.deepcopy.levels = c.levels - c.min_value ∧
    c.deepcopy.reverse = false ∧
    c.deepcopy.prev_value = none ∧
    c.deepcopy.color = none ∧
    ((c.deepcopy.levels = c.levels ∧ c.deepcopy.reverse = c.reverse) ↔
      (c.min_value = 0 ∧ c.reverse = false)) ∧
    (c.deepcopy.levels ≤ 0 ↔ c.levels ≤ c.min_value) := by
  refine ⟨rfl, rfl, rfl, rfl, rfl, ?_, sub_nonpos⟩
  constructor
  · rintro ⟨h1, h2⟩
    exact ⟨sub_eq_self.mp h1, h2.symm⟩
  · rintro ⟨h1, h2⟩
    refine ⟨?_, h2.symm⟩
    show c.levels - c.min_value = c.levels
    rw [h1, sub_zero]

/-- Witness for `c10_theorem` at `ColorCalc(10, 20, reverse=True)`. -/
theorem c10_theorem_witness :
    (ColorCalc.init 10 20 true).deepcopy.min_value =
      (ColorCalc.init 10 20 true).min_value ∧
    (ColorCalc.init 10 20 true).deepcopy.levels =
      (ColorCalc.init 10 20 true).levels - (ColorCalc.init 10 20 true).min_value ∧
    (ColorCalc.init 10 20 true).deepcopy.reverse = false ∧
    (ColorCalc.init 10 20 true).deepcopy.prev_value = none ∧
    (ColorCalc.init 10 20 true).deepcopy.color = none ∧
    (((ColorCalc.init 10 20 true).deepcopy.levels = (ColorCalc.init 10 20 true).levels ∧
      (ColorCalc.init 10 20 true).deepcopy.reverse = (ColorCalc.init 10 20 true).reverse) ↔
      ((ColorCalc.init 10 20 true).min_value = 0 ∧
       (ColorCalc.init 10 20 true).reverse = false)) ∧
    ((ColorCalc.init 10 20 true).deepcopy.levels ≤ 0 ↔
      (ColorCalc.init 10 20 true).levels ≤ (ColorCalc.init 10 20 true).min_value) :=
  c10_theorem (ColorCalc.init 10 20 true)

end Sense
